import Mathlib

/-!
Verification development for the weather ETL pipeline
(src/transform.py, src/load.py of the de-01-python-etl-toolkit repository).

The pandas DataFrame is embedded as a list of rows; nullable floating-point
measurement cells become `Option ℚ` (pandas NaN = `none`), the nullable
integer weather code becomes `Option Int`, and fallible pipeline stages
return `Except TError`.  The Postgres table is embedded as an association
list keyed on (city, time), and the upsert statement as insert-or-replace
on that list.
-/

namespace ETL

/-! ### Calendar dates (embedding of pandas datetime values) -/

structure Date where
  year : Nat
  month : Nat
  day : Nat
deriving DecidableEq, Repr

def isLeapYear (y : Nat) : Bool :=
  (y % 4 == 0 && y % 100 != 0) || y % 400 == 0

def daysInMonth (y m : Nat) : Nat :=
  if m = 2 then (if isLeapYear y then 29 else 28)
  else if m = 4 ∨ m = 6 ∨ m = 9 ∨ m = 11 then 30
  else 31

/-- Days in the months of year `y` strictly before month `m`. -/
def daysBeforeMonth (y m : Nat) : Nat :=
  (List.range (m - 1)).foldl (fun acc i => acc + daysInMonth y (i + 1)) 0

/-- Day number of a date in the proleptic Gregorian calendar
(0001-01-01 is day 1, a Monday). -/
def dayNumber (d : Date) : Nat :=
  let y := d.year - 1
  365 * y + y / 4 - y / 100 + y / 400 + daysBeforeMonth d.year d.month + d.day

def dayNames : List String :=
  ["Sunday", "Monday", "Tuesday", "Wednesday", "Thursday", "Friday", "Saturday"]

/-- Weekday name of a date, as produced by pandas `Series.dt.day_name()`. -/
def dayName (d : Date) : String :=
  dayNames.getD (dayNumber d % 7) ""

/-! ### Strict date parsing (pd.to_datetime with format "%Y-%m-%d") -/

def digitVal (c : Char) : Option Nat :=
  if c.isDigit then some (c.toNat - 48) else none

def parseNatDigits (cs : List Char) : Option Nat :=
  if cs.isEmpty then none
  else
    cs.foldl
      (fun acc c =>
        match acc, digitVal c with
        | some a, some v => some (a * 10 + v)
        | _, _ => none)
      (some 0)

/-- Split a character list into dash-separated groups. -/
def splitDash : List Char → List (List Char)
  | [] => [[]]
  | '-' :: t => [] :: splitDash t
  | c :: t =>
    match splitDash t with
    | [] => [[c]]
    | g :: gs => (c :: g) :: gs

/-- Parse a date string as `pd.to_datetime` with format `%Y-%m-%d` does:
strptime-style, so `%Y` matches 1-4 digits and `%m`/`%d` match 1-2 digits
(non-zero-padded components such as "2024-1-1" are accepted), the year is at
least 1, and the month/day must denote a real calendar date; `none` models
the exception raised on a mismatch. -/
def parseDate (s : String) : Option Date :=
  match splitDash s.toList with
  | [ys, ms, ds] =>
    if 1 ≤ ys.length ∧ ys.length ≤ 4 ∧ 1 ≤ ms.length ∧ ms.length ≤ 2
        ∧ 1 ≤ ds.length ∧ ds.length ≤ 2 then do
      let y ← parseNatDigits ys
      let m ← parseNatDigits ms
      let d ← parseNatDigits ds
      if 1 ≤ y ∧ 1 ≤ m ∧ m ≤ 12 ∧ 1 ≤ d ∧ d ≤ daysInMonth y m then
        some ⟨y, m, d⟩
      else none
    else none
  | _ => none

/-- Spec-side predicate, following the spec's words only: a date string
matching the strict zero-padded `YYYY-MM-DD` pattern (exactly ten characters,
four digits, dash, two digits, dash, two digits).  Used to compare the spec's
"strict pattern" with the program's actual strptime-style parser. -/
def strictFormatSpec (s : String) : Bool :=
  match s.toList with
  | [y1, y2, y3, y4, '-', m1, m2, '-', d1, d2] =>
    y1.isDigit && y2.isDigit && y3.isDigit && y4.isDigit &&
    m1.isDigit && m2.isDigit && d1.isDigit && d2.isDigit
  | _ => false

/-! ### Numeric coercion (pd.to_numeric with errors="coerce") -/

/-- Split a character list at the first decimal point. -/
def splitDot : List Char → (List Char × Option (List Char))
  | [] => ([], none)
  | '.' :: t => ([], some t)
  | c :: t =>
    let (i, f) := splitDot t
    (c :: i, f)

/-- Strip an optional leading sign, returning the sign factor and the rest. -/
def signSplit : List Char → ℚ × List Char
  | '-' :: t => (-1, t)
  | '+' :: t => (1, t)
  | cs => (1, cs)

/-- Parse a decimal literal (optional sign, integer part, optional fraction)
into a rational; `none` for anything unparsable.  This grammar is narrower
than `pd.to_numeric`'s (no scientific notation, surrounding whitespace or
inf/nan literals): such strings are missing here but parse in pandas. -/
def parseRat (s : String) : Option ℚ :=
  let (sign, cs) := signSplit s.toList
  match splitDot cs with
  | (ip, none) => (parseNatDigits ip).map (fun n => sign * n)
  | (ip, some f) =>
    if ip.isEmpty ∧ f.isEmpty then none
    else do
      let i ← if ip.isEmpty then some 0 else parseNatDigits ip
      let fv ← if f.isEmpty then some 0 else parseNatDigits f
      some (sign * ((i : ℚ) + (fv : ℚ) / ((10 : ℚ) ^ f.length)))

/-- A raw cell as it arrives from extraction: a number, an arbitrary string,
or missing (NaN). -/
inductive RawVal where
  | num (q : ℚ)
  | str (s : String)
  | missing
deriving DecidableEq, Repr

/-- `pd.to_numeric(errors="coerce")` on one cell: numbers pass through,
parsable strings are converted, anything else becomes missing. -/
def toNumeric : RawVal → Option ℚ
  | .num q => some q
  | .str s => parseRat s
  | .missing => none

/-- Weather-code coercion of one cell: `pd.to_numeric(errors="coerce")`
followed by `astype("Int64")`.  Unparsable values become missing via the
coercion, missing and integral values convert, but a parsable non-integral
value makes the cast raise. -/
def toWeatherCode (v : RawVal) : Except String (Option Int) :=
  match toNumeric v with
  | none => .ok none
  | some q =>
    if q.den = 1 then .ok (some q.num)
    else .error "cannot safely cast non-equivalent float64 to int64"

/-- Whether the weather-code cast raises on this cell. -/
def badWeatherCell (v : RawVal) : Bool :=
  match toWeatherCode v with
  | .ok _ => false
  | .error _ => true

/-- The cell value of a successful weather-code cast (the error case is
excluded by `cast_types` before any row is built). -/
def wcCell (v : RawVal) : Option Int :=
  ((toWeatherCode v).toOption).join

/-! ### Row types -/

/-- A raw row of the unified extracted dataset (the `source_file` provenance
column is extraction metadata dropped at the start of `transform` and is not
represented). -/
structure RawRow where
  city : String
  time : String
  temperature_2m_max : RawVal
  temperature_2m_min : RawVal
  precipitation_sum : RawVal
  rain_sum : RawVal
  snowfall_sum : RawVal
  weather_code : RawVal
  wind_speed_10m_max : RawVal
deriving DecidableEq, Repr

/-- A typed row after `cast_types`. -/
structure Row where
  city : String
  time : Date
  temperature_2m_max : Option ℚ
  temperature_2m_min : Option ℚ
  precipitation_sum : Option ℚ
  rain_sum : Option ℚ
  snowfall_sum : Option ℚ
  weather_code : Option Int
  wind_speed_10m_max : Option ℚ
deriving DecidableEq, Repr

/-- A row of the transform output, after `add_computed_columns`. -/
structure OutRow where
  city : String
  time : Date
  temperature_2m_max : Option ℚ
  temperature_2m_min : Option ℚ
  precipitation_sum : Option ℚ
  rain_sum : Option ℚ
  snowfall_sum : Option ℚ
  weather_code : Option Int
  wind_speed_10m_max : Option ℚ
  temp_range : Option ℚ
  month : Nat
  day_of_week : String
deriving DecidableEq, Repr

/-- Errors escalated by the transform pipeline: the date-parsing failure of
`pd.to_datetime`, the `ValueError` raised for an unknown missing-value
strategy, and the `TypeError` raised when a value cannot be represented in
the nullable-integer weather-code column (astype of a non-integral numeric,
or fillna with a non-integral mean). -/
inductive TError where
  | parseError (msg : String)
  | configError (msg : String)
  | typeError (msg : String)
deriving DecidableEq, Repr

instance {ε α : Type} [DecidableEq ε] [DecidableEq α] : DecidableEq (Except ε α) :=
  fun x y =>
    match x, y with
    | .ok a, .ok b =>
      if h : a = b then isTrue (by rw [h]) else isFalse (fun hc => h (Except.ok.inj hc))
    | .error e, .error f =>
      if h : e = f then isTrue (by rw [h]) else isFalse (fun hc => h (Except.error.inj hc))
    | .ok _, .error _ => isFalse (fun hc => Except.noConfusion hc)
    | .error _, .ok _ => isFalse (fun hc => Except.noConfusion hc)

/-! ### Transform stages (src/transform.py) -/

/-- Generic keep-first deduplication with an accumulator of already seen
keys; embeds `df.drop_duplicates(subset=..., keep="first")`. -/
def dedupFirst {α κ : Type} [DecidableEq κ] (key : α → κ) : List κ → List α → List α
  | _, [] => []
  | seen, r :: t =>
    if key r ∈ seen then dedupFirst key seen t
    else r :: dedupFirst key (key r :: seen) t

/-- `remove_duplicates`: drop rows whose (city, time) key already occurred
earlier, keeping the first occurrence. -/
def remove_duplicates (l : List RawRow) : List RawRow :=
  dedupFirst (fun r => (r.city, r.time)) [] l

/-- Cast one raw row given its parsed date (the numeric coercions of
`cast_types`). -/
def castRowD (r : RawRow) (d : Date) : Row :=
  { city := r.city
    time := d
    temperature_2m_max := toNumeric r.temperature_2m_max
    temperature_2m_min := toNumeric r.temperature_2m_min
    precipitation_sum := toNumeric r.precipitation_sum
    rain_sum := toNumeric r.rain_sum
    snowfall_sum := toNumeric r.snowfall_sum
    weather_code := wcCell r.weather_code
    wind_speed_10m_max := toNumeric r.wind_speed_10m_max }

/-- Cast one raw row; `none` when the date string fails to parse. -/
def castRow (r : RawRow) : Option Row :=
  (parseDate r.time).map (castRowD r)

/-- `cast_types`, column by column in source order: parse the date column
first (`pd.to_datetime` raises on the whole column if any value mismatches),
coerce the numeric columns with coercion-to-missing (never raises), then
cast the weather-code column to the nullable integer dtype
(`astype("Int64")` raises if any parsed value is non-integral). -/
def cast_types (l : List RawRow) : Except TError (List Row) :=
  if l.all (fun r => (parseDate r.time).isSome) then
    if l.all (fun r => !badWeatherCell r.weather_code) then
      .ok (l.filterMap castRow)
    else .error (.typeError "cannot safely cast non-equivalent float64 to int64")
  else .error (.parseError "time data does not match format %Y-%m-%d")

/-- Number of missing cells in one row (`df.isna().sum()` restricted to the
row; `city` and `time` are never missing after casting). -/
def rowMissingCount (r : Row) : Nat :=
  (if r.temperature_2m_max.isNone then 1 else 0) +
  (if r.temperature_2m_min.isNone then 1 else 0) +
  (if r.precipitation_sum.isNone then 1 else 0) +
  (if r.rain_sum.isNone then 1 else 0) +
  (if r.snowfall_sum.isNone then 1 else 0) +
  (if r.weather_code.isNone then 1 else 0) +
  (if r.wind_speed_10m_max.isNone then 1 else 0)

/-- `df.isna().sum().sum()`: total number of missing cells. -/
def missingCount (l : List Row) : Nat :=
  (l.map rowMissingCount).sum

/-- `df.dropna()`: keep only rows without any missing cell. -/
def dropMissing (l : List Row) : List Row :=
  l.filter (fun r => rowMissingCount r == 0)

/-- Fill the numeric cells of one row with 0 (`fillna(0)` over the numeric
columns; the nullable-integer weather code is numeric as well). -/
def fillZeroRow (r : Row) : Row :=
  { r with
    temperature_2m_max := some (r.temperature_2m_max.getD 0)
    temperature_2m_min := some (r.temperature_2m_min.getD 0)
    precipitation_sum := some (r.precipitation_sum.getD 0)
    rain_sum := some (r.rain_sum.getD 0)
    snowfall_sum := some (r.snowfall_sum.getD 0)
    weather_code := some (r.weather_code.getD 0)
    wind_speed_10m_max := some (r.wind_speed_10m_max.getD 0) }

/-- Column mean skipping missing values (`Series.mean()`); `none` when the
column has no observed value (pandas mean = NaN there, and `fillna` with NaN
fills nothing). -/
def meanOpt (col : List (Option ℚ)) : Option ℚ :=
  let v := col.filterMap id
  if v.length = 0 then none else some (v.sum / (v.length : ℚ))

/-- Fill a missing cell with the (optional) column fill value. -/
def fillWith {α : Type} (m : Option α) : Option α → Option α
  | some x => some x
  | none => m

/-- Column-level view of the `fill_mean` strategy: every missing cell of a
column becomes the column's mean over its non-missing cells. -/
def fillMeanCol (col : List (Option ℚ)) : List (Option ℚ) :=
  col.map (fillWith (meanOpt col))

/-- Mean of the weather-code column as the Float64 scalar pandas computes
(`none` = NaN when the column has no observed value). -/
def wcMeanQ (l : List Row) : Option ℚ :=
  let v := l.filterMap (fun r => r.weather_code)
  if v.length = 0 then none else some (((v.sum : ℤ) : ℚ) / (v.length : ℚ))

/-- The fill value actually written into the nullable-integer weather-code
column on the success path: the integral mean (a NaN fill value fills
nothing). The non-integral case raises instead of filling and is excluded
beforehand by the `wcFillError` guard in `handle_missing_values`. -/
def wcMean (l : List Row) : Option Int :=
  match wcMeanQ l with
  | none => none
  | some q => if q.den = 1 then some q.num else none

/-- Whether `fillna` raises on the weather-code column: there is a missing
code to fill and the column mean is a non-integral (non-NaN) float, which
cannot be set into the Int64 column. -/
def wcFillError (l : List Row) : Bool :=
  l.any (fun r => r.weather_code.isNone) &&
    (match wcMeanQ l with
     | none => false
     | some q => q.den != 1)

/-- The `fill_mean` strategy: `df[numeric_cols].fillna(df[numeric_cols].mean())`,
each column filled with its own mean over the current dataset. -/
def fillMeanRows (l : List Row) : List Row :=
  let mtmax := meanOpt (l.map (fun r => r.temperature_2m_max))
  let mtmin := meanOpt (l.map (fun r => r.temperature_2m_min))
  let mpsum := meanOpt (l.map (fun r => r.precipitation_sum))
  let mrsum := meanOpt (l.map (fun r => r.rain_sum))
  let mssum := meanOpt (l.map (fun r => r.snowfall_sum))
  let mwind := meanOpt (l.map (fun r => r.wind_speed_10m_max))
  let mwc := wcMean l
  l.map (fun r =>
    { r with
      temperature_2m_max := fillWith mtmax r.temperature_2m_max
      temperature_2m_min := fillWith mtmin r.temperature_2m_min
      precipitation_sum := fillWith mpsum r.precipitation_sum
      rain_sum := fillWith mrsum r.rain_sum
      snowfall_sum := fillWith mssum r.snowfall_sum
      weather_code := fillWith mwc r.weather_code
      wind_speed_10m_max := fillWith mwind r.wind_speed_10m_max })

/-- `handle_missing_values`: early return when the dataset has no missing
cell, then dispatch on the strategy string, raising `ValueError` for an
unknown strategy; under fill_mean, `fillna` raises a `TypeError` when a
missing weather code would be filled with a non-integral mean. -/
def handle_missing_values (l : List Row) (strategy : String) : Except TError (List Row) :=
  if missingCount l = 0 then .ok l
  else if strategy = "drop" then .ok (dropMissing l)
  else if strategy = "fill_zero" then .ok (l.map fillZeroRow)
  else if strategy = "fill_mean" then
    if wcFillError l then .error (.typeError "Invalid value for dtype Int64")
    else .ok (fillMeanRows l)
  else .error (.configError ("Unknown strategy: " ++ strategy))

/-- Pandas comparison `series < c` on one cell: `false` on NaN. -/
def ltOpt (o : Option ℚ) (c : ℚ) : Bool :=
  match o with
  | some v => decide (v < c)
  | none => false

/-- Pandas comparison `series > c` on one cell: `false` on NaN. -/
def gtOpt (o : Option ℚ) (c : ℚ) : Bool :=
  match o with
  | some v => decide (v > c)
  | none => false

/-- The rejection mask of `validate_temperature`. -/
def tempMask (r : Row) : Bool :=
  ltOpt r.temperature_2m_max (-60) || gtOpt r.temperature_2m_max 60 ||
  ltOpt r.temperature_2m_min (-60) || gtOpt r.temperature_2m_min 60

/-- `validate_temperature`: keep the rows not flagged by the mask. -/
def validate_temperature (l : List Row) : List Row :=
  l.filter (fun r => !tempMask r)

/-- The precipitation-family columns. -/
inductive PrecipCol where
  | psum
  | rsum
  | ssum
deriving DecidableEq, Repr

def precipVal : PrecipCol → Row → Option ℚ
  | .psum, r => r.precipitation_sum
  | .rsum, r => r.rain_sum
  | .ssum, r => r.snowfall_sum

/-- The rejection mask of `validate_precipitation`, built by OR-ing
`df[col] < 0` over the precipitation columns present in the dataset. -/
def precipMask (present : List PrecipCol) (r : Row) : Bool :=
  present.any (fun c => ltOpt (precipVal c r) 0)

/-- `validate_precipitation`: keep the rows not flagged by the mask. -/
def validate_precipitation (present : List PrecipCol) (l : List Row) : List Row :=
  l.filter (fun r => !precipMask present r)

/-- Difference of two nullable cells (NaN propagates). -/
def sub2 : Option ℚ → Option ℚ → Option ℚ
  | some x, some y => some (x - y)
  | _, _ => none

/-- `add_computed_columns` on one row: `temp_range`, `month`, `day_of_week`
are computed from the temperature fields and the date. -/
def computeRow (r : Row) : OutRow :=
  { city := r.city
    time := r.time
    temperature_2m_max := r.temperature_2m_max
    temperature_2m_min := r.temperature_2m_min
    precipitation_sum := r.precipitation_sum
    rain_sum := r.rain_sum
    snowfall_sum := r.snowfall_sum
    weather_code := r.weather_code
    wind_speed_10m_max := r.wind_speed_10m_max
    temp_range := sub2 r.temperature_2m_max r.temperature_2m_min
    month := r.time.month
    day_of_week := dayName r.time }

def add_computed_columns (l : List Row) : List OutRow :=
  l.map computeRow

/-- `transform`: the full pipeline in the order of the source — dedup, cast,
missing-value handling, temperature validation, precipitation validation,
derived columns (all three precipitation columns are present in the embedded
schema). -/
def transform (l : List RawRow) (strategy : String) : Except TError (List OutRow) :=
  match cast_types (remove_duplicates l) with
  | .error e => .error e
  | .ok c =>
    match handle_missing_values c strategy with
    | .error e => .error e
    | .ok m =>
      let v := validate_temperature m
      let p := validate_precipitation [.psum, .rsum, .ssum] v
      .ok (add_computed_columns p)

/-! ### Loader (src/load.py) -/

abbrev Key := String × Date

/-- The non-key columns of the `weather_data` relation, exactly those listed
in `UPSERT_SQL`'s update clause. -/
structure Payload where
  precipitation_sum : Option ℚ
  temperature_2m_max : Option ℚ
  temperature_2m_min : Option ℚ
  rain_sum : Option ℚ
  snowfall_sum : Option ℚ
  weather_code : Option Int
  wind_speed_10m_max : Option ℚ
  temp_range : Option ℚ
  month : Nat
  day_of_week : String
deriving DecidableEq, Repr

def rowKey (r : OutRow) : Key := (r.city, r.time)

def rowPayload (r : OutRow) : Payload :=
  { precipitation_sum := r.precipitation_sum
    temperature_2m_max := r.temperature_2m_max
    temperature_2m_min := r.temperature_2m_min
    rain_sum := r.rain_sum
    snowfall_sum := r.snowfall_sum
    weather_code := r.weather_code
    wind_speed_10m_max := r.wind_speed_10m_max
    temp_range := r.temp_range
    month := r.month
    day_of_week := r.day_of_week }

/-- The persisted `weather_data` relation: an association list keyed on
(city, time), unique by the table's uniqueness constraint. -/
abbrev Store := List (Key × Payload)

/-- One record of `INSERT ... ON CONFLICT (city, time) DO UPDATE`: replace
the non-key columns in place when the key exists (the key pair itself is
left untouched), append a fresh row otherwise. -/
def upsert : Store → Key → Payload → Store
  | [], k, v => [(k, v)]
  | p :: t, k, v => if p.1 = k then (p.1, v) :: t else p :: upsert t k v

/-- The batch upsert applies the records in order. -/
def upsertAll (s : Store) (l : List (Key × Payload)) : Store :=
  l.foldl (fun s kv => upsert s kv.1 kv.2) s

/-- The records `load` builds from the DataFrame, one per row in order. -/
def toRecords (l : List OutRow) : List (Key × Payload) :=
  l.map (fun r => (rowKey r, rowPayload r))

/-- The effect of a successful `load(df)` on the stored relation. -/
def loadStore (s : Store) (l : List OutRow) : Store :=
  upsertAll s (toRecords l)

def lookupStore (s : Store) (k : Key) : Option Payload :=
  (s.find? (fun p => decide (p.1 = k))).map (fun p => p.2)

def keysOf (s : Store) : List Key :=
  s.map (fun p => p.1)

/-- Run the batch inside the open transaction: `fa = some i` makes the i-th
record (0-based) raise a storage error mid-batch; the result is the pending
(uncommitted) state, or `none` on failure. -/
def applyBatch : Store → List (Key × Payload) → Option Nat → Option Store
  | s, [], _ => some s
  | s, kv :: t, fa =>
    if fa = some 0 then none
    else applyBatch (upsert s kv.1 kv.2) t (fa.map (fun n => n - 1))

/-- `load`'s transaction: on success commit the pending state and return
`len(df)`; on any failure roll back (the committed state is unchanged) and
propagate the storage error. -/
def loadTx (committed : Store) (records : List (Key × Payload)) (failAt : Option Nat) :
    Store × Except String Nat :=
  match applyBatch committed records failAt with
  | some pending => (pending, .ok records.length)
  | none => (committed, .error "Load failed")

/-! ### Concrete sample data -/

/-- An ordinary valid raw row. -/
def rawGood : RawRow :=
  { city := "berlin", time := "2024-01-01",
    temperature_2m_max := .num 10, temperature_2m_min := .num 2,
    precipitation_sum := .num 1, rain_sum := .num 1, snowfall_sum := .num 0,
    weather_code := .num 3, wind_speed_10m_max := .num 5 }

/-- Scenario B: a row with an unrealistic maximum temperature of 100.0 °C
and a minimum of 3.4 °C (= 17/5). -/
def rawHot : RawRow :=
  { rawGood with
    time := "2024-01-02"
    temperature_2m_max := .num 100
    temperature_2m_min := .num (mkRat 17 5) }

/-- A raw row whose date string denotes no calendar date. -/
def rawBadDate : RawRow :=
  { rawGood with time := "2024-13-01" }

/-- Scenario A: same (city, time) key as `rawGood`, different measurement. -/
def rawDup : RawRow :=
  { rawGood with temperature_2m_max := .num 55 }

/-- The typed row corresponding to `rawGood`. -/
def rowGood : Row := castRowD rawGood ⟨2024, 1, 1⟩

/-- A typed row with a missing maximum temperature. -/
def rowMissing : Row := { rowGood with temperature_2m_max := none }

/-- A typed row with a missing precipitation sum. -/
def rowMissingP : Row := { rowGood with precipitation_sum := none }

/-- Scenario C rows: the temperature_2m_max column reads [1, missing, 3]. -/
def rowM1 : Row := { rowGood with temperature_2m_max := some 1 }

def rowM2 : Row := { rowGood with temperature_2m_max := none }

def rowM3 : Row := { rowGood with temperature_2m_max := some 3 }

/-- A boundary row: both temperatures exactly on the closed bounds. -/
def rowBoundary : Row :=
  { rowGood with
    temperature_2m_max := some 60
    temperature_2m_min := some (-60) }

/-- Weather-code counterexample rows: codes [1, 2, missing], whose mean 3/2
is not representable in the nullable-integer column. -/
def roww1 : Row := { rowGood with weather_code := some 1 }

def roww2 : Row := { rowGood with weather_code := some 2 }

def roww3 : Row := { rowGood with weather_code := none }

/-- A raw row whose date string is valid but not zero-padded. -/
def rawNonPadded : RawRow := { rawGood with time := "2024-1-1" }

/-- The transform output row corresponding to `rawNonPadded`. -/
def outNonPadded : OutRow := computeRow (castRowD rawNonPadded ⟨2024, 1, 1⟩)

/-- The transform output row corresponding to `rawGood`: city "berlin",
date 2024-01-01, temp_range 10 − 2 = 8, month 1, day_of_week "Monday". -/
def outGood : OutRow := computeRow rowGood

/-- A second output row with a distinct (city, time) key. -/
def outGood2 : OutRow := computeRow { rowGood with time := ⟨2024, 1, 2⟩ }

/-- A two-record batch for the transactional witness. -/
def recsEx : List (Key × Payload) := toRecords [outGood, outGood2]

/-! ### Specification-side predicates -/

/-- A nullable temperature cell is acceptable when any present value lies in
the closed range [-60, 60]. -/
def tempOkOpt (o : Option ℚ) : Prop :=
  ∀ v : ℚ, o = some v → -60 ≤ v ∧ v ≤ 60

/-- A nullable precipitation cell is acceptable when any present value is
non-negative. -/
def precipOk (o : Option ℚ) : Prop :=
  ∀ v : ℚ, o = some v → 0 ≤ v

/-! ### Helper lemmas -/

theorem ltOpt_eq_false_iff (o : Option ℚ) (c : ℚ) :
    ltOpt o c = false ↔ ∀ v : ℚ, o = some v → c ≤ v := by
  cases o with
  | none => simp [ltOpt]
  | some v => simp [ltOpt, not_lt]

theorem gtOpt_eq_false_iff (o : Option ℚ) (c : ℚ) :
    gtOpt o c = false ↔ ∀ v : ℚ, o = some v → v ≤ c := by
  cases o with
  | none => simp [gtOpt]
  | some v => simp [gtOpt, not_lt]

theorem tempMask_eq_false_iff (r : Row) :
    tempMask r = false ↔
      tempOkOpt r.temperature_2m_max ∧ tempOkOpt r.temperature_2m_min := by
  unfold tempMask tempOkOpt
  constructor
  · intro h
    simp only [Bool.or_eq_false_iff] at h
    obtain ⟨⟨⟨h1, h2⟩, h3⟩, h4⟩ := h
    refine ⟨fun v hv => ?_, fun v hv => ?_⟩
    · exact ⟨(ltOpt_eq_false_iff _ _).mp h1 v hv, (gtOpt_eq_false_iff _ _).mp h2 v hv⟩
    · exact ⟨(ltOpt_eq_false_iff _ _).mp h3 v hv, (gtOpt_eq_false_iff _ _).mp h4 v hv⟩
  · intro ⟨hmax, hmin⟩
    simp only [Bool.or_eq_false_iff]
    refine ⟨⟨⟨?_, ?_⟩, ?_⟩, ?_⟩
    · exact (ltOpt_eq_false_iff _ _).mpr (fun v hv => (hmax v hv).1)
    · exact (gtOpt_eq_false_iff _ _).mpr (fun v hv => (hmax v hv).2)
    · exact (ltOpt_eq_false_iff _ _).mpr (fun v hv => (hmin v hv).1)
    · exact (gtOpt_eq_false_iff _ _).mpr (fun v hv => (hmin v hv).2)

theorem precipMask_eq_false_iff (present : List PrecipCol) (r : Row) :
    precipMask present r = false ↔ ∀ c ∈ present, precipOk (precipVal c r) := by
  unfold precipMask precipOk
  rw [List.any_eq_false]
  constructor
  · intro h c hc v hv
    exact (ltOpt_eq_false_iff _ _).mp (by simpa using h c hc) v hv
  · intro h c hc
    simpa using (ltOpt_eq_false_iff (precipVal c r) 0).mpr (h c hc)

theorem mem_validate_temperature (l : List Row) (r : Row) :
    r ∈ validate_temperature l ↔
      r ∈ l ∧ tempOkOpt r.temperature_2m_max ∧ tempOkOpt r.temperature_2m_min := by
  unfold validate_temperature
  rw [List.mem_filter, Bool.not_eq_true', tempMask_eq_false_iff]

theorem mem_validate_precipitation (present : List PrecipCol) (l : List Row) (r : Row) :
    r ∈ validate_precipitation present l ↔
      r ∈ l ∧ ∀ c ∈ present, precipOk (precipVal c r) := by
  unfold validate_precipitation
  rw [List.mem_filter, Bool.not_eq_true', precipMask_eq_false_iff]

/-- Unfolding of the monadic pipeline into its stage-by-stage form. -/
theorem transform_eq (l : List RawRow) (s : String) :
    transform l s =
      match cast_types (remove_duplicates l) with
      | .error e => .error e
      | .ok c =>
        match handle_missing_values c s with
        | .error e => .error e
        | .ok m =>
          .ok (add_computed_columns
            (validate_precipitation [.psum, .rsum, .ssum] (validate_temperature m))) := by
  unfold transform
  cases cast_types (remove_duplicates l) with
  | error e => rfl
  | ok c =>
    cases handle_missing_values c s with
    | error e => rfl
    | ok m => rfl

/-- The only errors `handle_missing_values` can raise are the configuration
error for an unknown strategy and the fill_mean type error. -/
theorem handle_missing_values_error (l : List Row) (s : String) (e : TError)
    (h : handle_missing_values l s = .error e) :
    (∃ msg, e = .configError msg) ∨ (∃ msg, e = .typeError msg) := by
  unfold handle_missing_values at h
  split_ifs at h <;>
    first
      | exact Or.inl ⟨_, (Except.error.inj h).symm⟩
      | exact Or.inr ⟨_, (Except.error.inj h).symm⟩

/-- Keep-first deduplication, characterised per key: the rows of the output
with key `k` are exactly the first row of the input with key `k` (none if
`k` was already seen). -/
theorem dedupFirst_filter {α κ : Type} [DecidableEq κ] (key : α → κ) (k : κ)
    (l : List α) : ∀ seen : List κ,
    (dedupFirst key seen l).filter (fun r => decide (key r = k)) =
      if k ∈ seen then [] else (l.find? (fun r => decide (key r = k))).toList := by
  induction l with
  | nil => intro seen; simp [dedupFirst]
  | cons r t ih =>
    intro seen
    by_cases hmem : key r ∈ seen
    · rw [dedupFirst, if_pos hmem, ih seen]
      by_cases hk : k ∈ seen
      · simp [hk]
      · have hne : ¬ key r = k := fun h => hk (h ▸ hmem)
        rw [if_neg hk, if_neg hk, List.find?_cons_of_neg _ (by simpa using hne)]
    · rw [dedupFirst, if_neg hmem]
      by_cases hrk : key r = k
      · have hk : k ∉ seen := fun h => hmem (hrk ▸ h)
        rw [List.filter_cons_of_pos (by simpa using hrk), ih (key r :: seen),
          if_pos (by simp [hrk]), if_neg hk, List.find?_cons_of_pos _ (by simpa using hrk)]
        rfl
      · have hk2 : ¬ k = key r := fun h => hrk h.symm
        rw [List.filter_cons_of_neg (by simpa using hrk), ih (key r :: seen)]
        by_cases hk : k ∈ seen
        · rw [if_pos (List.mem_cons_of_mem _ hk), if_pos hk]
        · rw [if_neg (by simp [List.mem_cons, hk2, hk]), if_neg hk,
            List.find?_cons_of_neg _ (by simpa using hrk)]

/-- Deduplication only ever returns rows of the input. -/
theorem mem_of_mem_dedupFirst {α κ : Type} [DecidableEq κ] (key : α → κ)
    (l : List α) : ∀ (seen : List κ) (r : α), r ∈ dedupFirst key seen l → r ∈ l := by
  induction l with
  | nil => intro seen r h; simp [dedupFirst] at h
  | cons a t ih =>
    intro seen r h
    rw [dedupFirst] at h
    by_cases hmem : key a ∈ seen
    · rw [if_pos hmem] at h
      exact List.mem_cons_of_mem a (ih seen r h)
    · rw [if_neg hmem] at h
      rcases List.mem_cons.mp h with h | h
      · exact h ▸ List.mem_cons_self a t
      · exact List.mem_cons_of_mem a (ih (key a :: seen) r h)

theorem mem_of_mem_remove_duplicates (l : List RawRow) (r : RawRow)
    (h : r ∈ remove_duplicates l) : r ∈ l :=
  mem_of_mem_dedupFirst _ l [] r h

/-- Every key of the input survives deduplication: the first row carrying it
is in the output. -/
theorem remove_duplicates_key_covered (l : List RawRow) (r : RawRow) (h : r ∈ l) :
    ∃ r' ∈ remove_duplicates l, r'.city = r.city ∧ r'.time = r.time := by
  have hfind : (l.find? (fun x => decide ((x.city, x.time) = (r.city, r.time)))).isSome := by
    rw [List.find?_isSome]
    exact ⟨r, h, by simp⟩
  obtain ⟨r0, hr0⟩ := Option.isSome_iff_exists.mp hfind
  have hkey : (r0.city, r0.time) = (r.city, r.time) := by
    have := List.find?_some hr0
    simpa using this
  have hfilter := dedupFirst_filter (fun x : RawRow => (x.city, x.time))
    (r.city, r.time) l []
  rw [if_neg (by simp)] at hfilter
  have hr0mem : r0 ∈ (remove_duplicates l).filter
      (fun x => decide ((x.city, x.time) = (r.city, r.time))) := by
    rw [remove_duplicates, hfilter, hr0]
    simp
  exact ⟨r0, (List.mem_filter.mp hr0mem).1,
    (Prod.mk.injEq _ _ _ _).mp hkey |>.1, (Prod.mk.injEq _ _ _ _).mp hkey |>.2⟩

/-- Casting fails with the date-parsing error as soon as any date string of
the dataset fails to parse, before the weather-code column is considered. -/
theorem cast_types_parseError_of_badDate (l : List RawRow) (r : RawRow)
    (hr : r ∈ l) (hnone : parseDate r.time = none) :
    cast_types l = .error (.parseError "time data does not match format %Y-%m-%d") := by
  have hfalse : ¬ (l.all (fun x => (parseDate x.time).isSome) = true) := by
    rw [List.all_eq_true]
    intro hall
    have hx := hall r hr
    rw [hnone] at hx
    simp at hx
  rw [cast_types, if_neg hfalse]

/-- When every date parses and no weather-code cell is non-integral, casting
the whole dataset succeeds row by row. -/
theorem cast_types_ok (l : List RawRow)
    (h1 : ∀ r ∈ l, (parseDate r.time).isSome)
    (h2 : ∀ r ∈ l, badWeatherCell r.weather_code = false) :
    cast_types l = .ok (l.filterMap castRow) := by
  rw [cast_types, if_pos (List.all_eq_true.mpr h1),
    if_pos (List.all_eq_true.mpr (fun r hr => by rw [h2 r hr]; rfl))]

/-- When every date parses, casting never produces a parse error: it either
succeeds or raises the weather-code cast type error. -/
theorem cast_types_of_dates (l : List RawRow)
    (h1 : ∀ r ∈ l, (parseDate r.time).isSome) :
    (∃ rows, cast_types l = .ok rows)
    ∨ cast_types l =
        .error (.typeError "cannot safely cast non-equivalent float64 to int64") := by
  rw [cast_types, if_pos (List.all_eq_true.mpr h1)]
  split_ifs with h2
  · exact Or.inl ⟨_, rfl⟩
  · exact Or.inr rfl

/-! ### Store lemmas -/

theorem lookupStore_upsert (s : Store) (k : Key) (v : Payload) (k' : Key) :
    lookupStore (upsert s k v) k' = if k' = k then some v else lookupStore s k' := by
  induction s with
  | nil =>
    by_cases h : k' = k
    · simp [upsert, lookupStore, List.find?, h]
    · have h' : ¬ k = k' := fun hkk => h hkk.symm
      simp [upsert, lookupStore, List.find?, h, h']
  | cons p t ih =>
    rw [upsert]
    by_cases h1 : p.1 = k
    · rw [if_pos h1]
      by_cases h2 : k' = k
      · simp [lookupStore, List.find?, h1, h2]
      · have hne : ¬ p.1 = k' := fun hc => h2 (hc ▸ h1)
        simp [lookupStore, List.find?, hne, h2]
    · rw [if_neg h1]
      by_cases h3 : p.1 = k'
      · have h2 : ¬ k' = k := fun hc => h1 (h3.symm ▸ hc)
        simp [lookupStore, List.find?, h3, h2]
      · have l1 : lookupStore (p :: upsert t k v) k' = lookupStore (upsert t k v) k' := by
          simp [lookupStore, List.find?, h3]
        have l2 : lookupStore (p :: t) k' = lookupStore t k' := by
          simp [lookupStore, List.find?, h3]
        rw [l1, l2]
        exact ih

theorem keysOf_upsert (s : Store) (k : Key) (v : Payload) :
    keysOf (upsert s k v) = if k ∈ keysOf s then keysOf s else keysOf s ++ [k] := by
  induction s with
  | nil => simp [upsert, keysOf]
  | cons p t ih =>
    rw [upsert]
    by_cases h1 : p.1 = k
    · rw [if_pos h1]
      simp [keysOf, h1]
    · rw [if_neg h1]
      have hne : ¬ k = p.1 := fun hc => h1 hc.symm
      simp only [keysOf, List.map_cons] at ih ⊢
      rw [ih]
      by_cases h2 : k ∈ t.map (fun p => p.1)
      · simp [List.mem_cons, hne, h2]
      · simp [List.mem_cons, hne, h2]

theorem mem_keysOf_upsert_self (s : Store) (k : Key) (v : Payload) :
    k ∈ keysOf (upsert s k v) := by
  rw [keysOf_upsert]
  by_cases h : k ∈ keysOf s
  · rwa [if_pos h]
  · rw [if_neg h]
    simp

theorem keysOf_subset_upsert (s : Store) (k : Key) (v : Payload) :
    keysOf s ⊆ keysOf (upsert s k v) := by
  rw [keysOf_upsert]
  by_cases h : k ∈ keysOf s
  · rw [if_pos h]
    exact fun a ha => ha
  · rw [if_neg h]
    exact List.subset_append_left _ _

theorem upsertAll_cons (s : Store) (kv : Key × Payload) (t : List (Key × Payload)) :
    upsertAll s (kv :: t) = upsertAll (upsert s kv.1 kv.2) t := rfl

theorem keysOf_subset_upsertAll (l : List (Key × Payload)) :
    ∀ s : Store, keysOf s ⊆ keysOf (upsertAll s l) := by
  induction l with
  | nil => intro s; exact fun k h => h
  | cons kv t ih =>
    intro s
    rw [upsertAll_cons]
    exact fun k h => ih (upsert s kv.1 kv.2) (keysOf_subset_upsert s kv.1 kv.2 h)

theorem record_keys_mem_upsertAll (l : List (Key × Payload)) :
    ∀ (s : Store), ∀ kv ∈ l, kv.1 ∈ keysOf (upsertAll s l) := by
  induction l with
  | nil => intro s kv h; cases h
  | cons kv0 t ih =>
    intro s kv h
    rw [upsertAll_cons]
    rcases List.mem_cons.mp h with h | h
    · subst h
      exact keysOf_subset_upsertAll t _ (mem_keysOf_upsert_self s kv.1 kv.2)
    · exact ih _ kv h

theorem keysOf_upsertAll_stable (l : List (Key × Payload)) :
    ∀ s : Store, (∀ kv ∈ l, kv.1 ∈ keysOf s) → keysOf (upsertAll s l) = keysOf s := by
  induction l with
  | nil => intro s _; rfl
  | cons kv t ih =>
    intro s h
    rw [upsertAll_cons]
    have hk : kv.1 ∈ keysOf s := h kv (List.mem_cons_self kv t)
    have heq : keysOf (upsert s kv.1 kv.2) = keysOf s := by
      rw [keysOf_upsert, if_pos hk]
    rw [ih (upsert s kv.1 kv.2) (fun kv' h' => heq ▸ h kv' (List.mem_cons_of_mem kv h')), heq]

/-- The payload of the last record of a batch carrying a given key. -/
def findLast : List (Key × Payload) → Key → Option Payload
  | [], _ => none
  | kv :: t, k =>
    match findLast t k with
    | some v => some v
    | none => if kv.1 = k then some kv.2 else none

theorem lookupStore_upsertAll (l : List (Key × Payload)) :
    ∀ (s : Store) (k : Key),
      lookupStore (upsertAll s l) k =
        match findLast l k with
        | some v => some v
        | none => lookupStore s k := by
  induction l with
  | nil => intro s k; rfl
  | cons kv t ih =>
    intro s k
    rw [upsertAll_cons, ih (upsert s kv.1 kv.2) k]
    rw [findLast]
    cases ht : findLast t k with
    | some v => rfl
    | none =>
      rw [lookupStore_upsert]
      by_cases h : kv.1 = k
      · rw [if_pos (h.symm), if_pos h]
      · rw [if_neg (fun hc => h hc.symm), if_neg h]

/-! ### Missing-value lemmas -/

theorem rowMissingCount_eq_zero (r : Row) (h : rowMissingCount r = 0) :
    r.temperature_2m_max ≠ none ∧ r.temperature_2m_min ≠ none ∧
    r.precipitation_sum ≠ none ∧ r.rain_sum ≠ none ∧ r.snowfall_sum ≠ none ∧
    r.weather_code ≠ none ∧ r.wind_speed_10m_max ≠ none := by
  unfold rowMissingCount at h
  refine ⟨?_, ?_, ?_, ?_, ?_, ?_, ?_⟩ <;>
    (intro hn; rw [hn] at h; simp [Option.isNone] at h)

theorem missingCount_zero_rows (l : List Row) (h : missingCount l = 0) :
    ∀ r ∈ l, rowMissingCount r = 0 := by
  intro r hr
  unfold missingCount at h
  exact List.sum_eq_zero_iff.mp h _ (List.mem_map_of_mem rowMissingCount hr)

theorem map_fillWith_of_no_missing {α : Type} (m : Option α) :
    ∀ col : List (Option α), (∀ o ∈ col, o ≠ none) → col.map (fillWith m) = col := by
  intro col
  induction col with
  | nil => intro _; rfl
  | cons o t ih =>
    intro h
    have ho : o ≠ none := h o (List.mem_cons_self o t)
    cases o with
    | none => exact absurd rfl ho
    | some v =>
      rw [List.map_cons, fillWith, ih (fun x hx => h x (List.mem_cons_of_mem _ hx))]

theorem fillMeanCol_of_no_missing (col : List (Option ℚ))
    (h : ∀ o ∈ col, o ≠ none) : fillMeanCol col = col :=
  map_fillWith_of_no_missing _ col h

/-- A dataset on which the fill_mean type error fires has a missing cell, so
the early return of `handle_missing_values` does not mask the error. -/
theorem missingCount_ne_zero_of_wcFillError (l : List Row)
    (h : wcFillError l = true) : missingCount l ≠ 0 := by
  intro h0
  rw [wcFillError, Bool.and_eq_true] at h
  obtain ⟨r, hr, hnone⟩ := List.any_eq_true.mp h.1
  have hzero := missingCount_zero_rows l h0 r hr
  exact (rowMissingCount_eq_zero r hzero).2.2.2.2.2.1
    (Option.isNone_iff_eq_none.mp hnone)

/-- The weather-code column of the counterexample rows has mean 3/2. -/
theorem wcMeanQ_roww : wcMeanQ [roww1, roww2, roww3] = some (mkRat 3 2) := by
  have h1 : [roww1, roww2, roww3].filterMap (fun r => r.weather_code) =
      [(1 : ℤ), 2] := by
    simp [roww1, roww2, roww3, List.filterMap_cons]
  simp only [wcMeanQ, h1]
  norm_num [Rat.mkRat_eq_div]

/-- The fill_mean type-error guard fires on the counterexample rows. -/
theorem wcFillError_roww : wcFillError [roww1, roww2, roww3] = true := by
  rw [wcFillError, wcMeanQ_roww]
  simp [roww1, roww2, roww3, show (mkRat 3 2).den = 2 from rfl]

/-! ### Transaction lemmas -/

theorem applyBatch_none_eq (recs : List (Key × Payload)) :
    ∀ s : Store, applyBatch s recs none = some (upsertAll s recs) := by
  induction recs with
  | nil => intro s; rfl
  | cons kv t ih =>
    intro s
    rw [applyBatch, if_neg (by simp), upsertAll_cons]
    exact ih (upsert s kv.1 kv.2)

theorem applyBatch_some_eq (recs : List (Key × Payload)) :
    ∀ (s : Store) (fa : Option Nat) (p : Store),
      applyBatch s recs fa = some p → p = upsertAll s recs := by
  induction recs with
  | nil =>
    intro s fa p h
    exact (Option.some.inj h).symm
  | cons kv t ih =>
    intro s fa p h
    rw [applyBatch] at h
    by_cases hf : fa = some 0
    · rw [if_pos hf] at h
      cases h
    · rw [if_neg hf] at h
      rw [upsertAll_cons]
      exact ih _ _ p h

/-! ### Claim theorems -/

/-- C1 (counterexample): with a dataset containing no missing values,
`handle_missing_values` — and the whole transform pipeline — succeeds even
though the missing-value strategy "bogus" is not one of drop, fill_zero,
fill_mean; no configuration error is raised, contradicting the claim that an
unknown strategy always fails. -/
theorem unknown_strategy_counterexample :
    handle_missing_values [rowGood] "bogus" = .ok [rowGood]
    ∧ transform [rawGood] "bogus" = .ok [outGood] :=
  ⟨rfl, rfl⟩

/-- C1 (amended): with a missing-value strategy that is not one of drop,
fill_zero, fill_mean, `handle_missing_values` fails with a configuration
error whenever the dataset contains at least one missing value; when the
dataset contains no missing value the strategy is never inspected and the
dataset is returned unchanged. -/
theorem unknown_strategy_amended (l : List Row) (s : String)
    (h1 : s ≠ "drop") (h2 : s ≠ "fill_zero") (h3 : s ≠ "fill_mean") :
    (missingCount l ≠ 0 →
      handle_missing_values l s = .error (.configError ("Unknown strategy: " ++ s)))
    ∧ (missingCount l = 0 → handle_missing_values l s = .ok l) := by
  constructor
  · intro hm
    rw [handle_missing_values, if_neg hm, if_neg h1, if_neg h2, if_neg h3]
  · intro hm
    rw [handle_missing_values, if_pos hm]

/-- Witness for the amended C1 at a concrete dataset with a missing value. -/
theorem unknown_strategy_amended_witness :
    handle_missing_values [rowMissing] "bogus" =
      .error (.configError "Unknown strategy: bogus") := by
  have h := unknown_strategy_amended [rowMissing] "bogus"
    (by decide) (by decide) (by decide)
  exact h.1 (by decide)

/-- C2: loading the same dataset twice leaves the same persisted row count
as loading it once, the same keys (key fields unchanged), and for every
(city, date) key the stored non-key values of the double load equal those of
the single load (last-write-wins). -/
theorem load_idempotent (s : Store) (D : List OutRow) :
    (loadStore (loadStore s D) D).length = (loadStore s D).length
    ∧ keysOf (loadStore (loadStore s D) D) = keysOf (loadStore s D)
    ∧ ∀ k : Key, lookupStore (loadStore (loadStore s D) D) k =
        lookupStore (loadStore s D) k := by
  have hkeys : keysOf (loadStore (loadStore s D) D) = keysOf (loadStore s D) :=
    keysOf_upsertAll_stable (toRecords D) (loadStore s D)
      (fun kv h => record_keys_mem_upsertAll (toRecords D) s kv h)
  refine ⟨?_, hkeys, ?_⟩
  · have hlen := congrArg List.length hkeys
    simpa [keysOf] using hlen
  · intro k
    rw [loadStore, lookupStore_upsertAll]
    cases hf : findLast (toRecords D) k with
    | some v => rw [loadStore, lookupStore_upsertAll, hf]
    | none => rfl

/-- C4: among the rows sharing any (city, date) key, deduplication keeps
exactly the first occurrence in original row order; in the concrete
Scenario A, two rows with equal keys and different measurements are reduced
to the first row alone (count 1). -/
theorem dedup_keeps_first_occurrence (l : List RawRow) (k : String × String) :
    ((remove_duplicates l).filter (fun r => decide ((r.city, r.time) = k)) =
      (l.find? (fun r => decide ((r.city, r.time) = k))).toList)
    ∧ remove_duplicates [rawGood, rawDup] = [rawGood]
    ∧ ([rawGood, rawDup].filter
        (fun r => decide ((r.city, r.time) = ("berlin", "2024-01-01")))).length = 2
    ∧ ((remove_duplicates [rawGood, rawDup]).filter
        (fun r => decide ((r.city, r.time) = ("berlin", "2024-01-01")))).length = 1 := by
  refine ⟨?_, by decide, by decide, by decide⟩
  have h := dedupFirst_filter (fun r : RawRow => (r.city, r.time)) k l []
  rw [if_neg (by simp)] at h
  exact h

/-- C9: the load transaction commits iff no failure occurs; on failure the
committed store is unchanged (rollback, error propagated), and on success
the store holds the whole batch and the returned count is the number of
records presented. -/
theorem load_transactional (s : Store) (recs : List (Key × Payload)) (fa : Option Nat) :
    (fa = none → loadTx s recs fa = (upsertAll s recs, .ok recs.length))
    ∧ (∀ e, (loadTx s recs fa).2 = .error e → (loadTx s recs fa).1 = s)
    ∧ (∀ n, (loadTx s recs fa).2 = .ok n →
        (loadTx s recs fa).1 = upsertAll s recs ∧ n = recs.length) := by
  cases hb : applyBatch s recs fa with
  | none =>
    refine ⟨?_, ?_, ?_⟩
    · intro hf
      subst hf
      rw [applyBatch_none_eq] at hb
      cases hb
    · intro e _
      rw [loadTx, hb]
    · intro n hn
      rw [loadTx, hb] at hn
      cases hn
  | some p =>
    have hp := applyBatch_some_eq recs s fa p hb
    refine ⟨?_, ?_, ?_⟩
    · intro _
      rw [loadTx, hb, hp]
    · intro e he
      rw [loadTx, hb] at he
      cases he
    · intro n hn
      rw [loadTx, hb] at hn ⊢
      exact ⟨by rw [hp], (Except.ok.inj hn).symm⟩

/-- Witness for C9: a concrete two-record batch, failing at the second
record (state unchanged) and not failing (full commit, count 2). -/
theorem load_transactional_witness :
    loadTx [] recsEx none = (upsertAll [] recsEx, .ok 2)
    ∧ (loadTx [] recsEx (some 1)).1 = [] := by
  constructor
  · exact (load_transactional [] recsEx none).1 rfl
  · exact (load_transactional [] recsEx (some 1)).2.1 "Load failed" rfl

/-- C3: `validate_temperature` keeps exactly the rows whose present
temperature values lie in the closed range [-60, 60] (values untouched, so
no repair or clamping); a row with both temperatures exactly on the bounds
is retained, and the Scenario B row (max 100.0, min 3.4) is absent from the
transform output. -/
theorem temperature_validation_exact (l : List Row) (r : Row) :
    (r ∈ validate_temperature l ↔
      r ∈ l ∧ tempOkOpt r.temperature_2m_max ∧ tempOkOpt r.temperature_2m_min)
    ∧ validate_temperature [rowBoundary] = [rowBoundary]
    ∧ transform [rawGood, rawHot] "drop" = .ok [outGood] :=
  ⟨mem_validate_temperature l r, rfl, rfl⟩

/-- C6: every row of a successful transform output has `temp_range` equal to
the difference of its temperature fields, `month` equal to the month of its
date, and `day_of_week` equal to the weekday name of its date — all
recomputed, never taken from the input (which carries no such columns). -/
theorem derived_fields_recomputed (raw : List RawRow) (strat : String)
    (out : List OutRow) (h : transform raw strat = .ok out) :
    ∀ o ∈ out,
      o.temp_range = sub2 o.temperature_2m_max o.temperature_2m_min
      ∧ o.month = o.time.month
      ∧ o.day_of_week = dayName o.time := by
  rw [transform_eq] at h
  split at h
  · cases h
  · split at h
    · cases h
    · have hout := (Except.ok.inj h).symm
      subst hout
      intro o ho
      obtain ⟨p, _, rfl⟩ := List.mem_map.mp ho
      exact ⟨rfl, rfl, rfl⟩

/-- Witness for C6 at the concrete output of a successful transform. -/
theorem derived_fields_recomputed_witness :
    outGood.temp_range = sub2 outGood.temperature_2m_max outGood.temperature_2m_min
    ∧ outGood.month = outGood.time.month
    ∧ outGood.day_of_week = dayName outGood.time :=
  derived_fields_recomputed [rawGood] "drop" [outGood] rfl outGood (by simp)

/-- C7: `validate_precipitation` keeps exactly the rows with no negative
value in any precipitation-family column present in the dataset, and
consequently every row of a successful transform output has non-negative
(or missing) precipitation_sum, rain_sum and snowfall_sum. -/
theorem precipitation_validation_exact (present : List PrecipCol) (l : List Row) (r : Row) :
    (r ∈ validate_precipitation present l ↔
      r ∈ l ∧ ∀ c ∈ present, precipOk (precipVal c r))
    ∧ (∀ (raw : List RawRow) (strat : String) (out : List OutRow),
        transform raw strat = .ok out →
        ∀ o ∈ out,
          precipOk o.precipitation_sum ∧ precipOk o.rain_sum ∧ precipOk o.snowfall_sum) := by
  refine ⟨mem_validate_precipitation present l r, ?_⟩
  intro raw strat out h o ho
  rw [transform_eq] at h
  split at h
  · cases h
  · split at h
    · cases h
    · have hout := (Except.ok.inj h).symm
      subst hout
      obtain ⟨p, hp, rfl⟩ := List.mem_map.mp ho
      have h3 := ((mem_validate_precipitation _ _ p).mp hp).2
      exact ⟨h3 .psum (by simp), h3 .rsum (by simp), h3 .ssum (by simp)⟩

/-- Witness for C7: the membership characterisation at a concrete row and
the output invariant at a concrete transform run. -/
theorem precipitation_validation_witness :
    rowGood ∈ validate_precipitation [PrecipCol.psum] [rowGood]
    ∧ precipOk outGood.precipitation_sum := by
  constructor
  · refine (precipitation_validation_exact [PrecipCol.psum] [rowGood] rowGood).1.mpr
      ⟨by simp, ?_⟩
    intro c hc v hv
    obtain rfl := List.mem_singleton.mp hc
    have hv' : some (1 : ℚ) = some v := hv
    rw [← Option.some.inj hv']
    norm_num
  · exact ((precipitation_validation_exact [] [] rowGood).2
      [rawGood] "drop" [outGood] rfl outGood (by simp)).1

/-- C10: a missing value is treated as neither out-of-range nor negative:
the comparison masks are false on missing cells, so a row whose
temperature_2m_max (resp. temperature_2m_min) is missing survives
`validate_temperature` whenever its other temperature is acceptable, and a
row whose present precipitation-family cells are all missing survives
`validate_precipitation`. -/
theorem missing_values_pass_validation (l : List Row) (r : Row) (hmem : r ∈ l) :
    (r.temperature_2m_max = none → tempOkOpt r.temperature_2m_min →
      r ∈ validate_temperature l)
    ∧ (r.temperature_2m_min = none → tempOkOpt r.temperature_2m_max →
      r ∈ validate_temperature l)
    ∧ (∀ present : List PrecipCol,
        (∀ c ∈ present, precipVal c r = none) →
        r ∈ validate_precipitation present l)
    ∧ (∀ c : ℚ, ltOpt none c = false ∧ gtOpt none c = false) := by
  refine ⟨?_, ?_, ?_, fun c => ⟨rfl, rfl⟩⟩
  · intro hmax hmin
    refine (mem_validate_temperature l r).mpr ⟨hmem, ?_, hmin⟩
    intro v hv
    rw [hmax] at hv
    cases hv
  · intro hmin hmax
    refine (mem_validate_temperature l r).mpr ⟨hmem, hmax, ?_⟩
    intro v hv
    rw [hmin] at hv
    cases hv
  · intro present hall
    refine (mem_validate_precipitation present l r).mpr ⟨hmem, ?_⟩
    intro c hc v hv
    rw [hall c hc] at hv
    cases hv

/-- C5 (counterexample): on a dataset whose weather-code column is
[1, 2, missing], the fill_mean strategy raises a type error instead of
replacing the missing value — the column mean 3/2 is not representable in
the nullable-integer dtype, so `fillna` raises and nothing is replaced. -/
theorem fill_mean_counterexample :
    handle_missing_values [roww1, roww2, roww3] "fill_mean" =
      .error (.typeError "Invalid value for dtype Int64")
    ∧ ∀ out, handle_missing_values [roww1, roww2, roww3] "fill_mean" ≠ .ok out := by
  have herr : handle_missing_values [roww1, roww2, roww3] "fill_mean" =
      .error (.typeError "Invalid value for dtype Int64") := by
    rw [handle_missing_values,
      if_neg (missingCount_ne_zero_of_wcFillError _ wcFillError_roww),
      if_neg (by decide), if_neg (by decide), if_pos rfl, if_pos wcFillError_roww]
  refine ⟨herr, fun out h => ?_⟩
  rw [herr] at h
  cases h

/-- C5 (amended): under the fill_mean strategy, whenever the weather-code
fill value is representable (no missing code, or an integral or NaN column
mean — `wcFillError` false) the call succeeds and every numeric column (the
six float measurement columns and the nullable-integer weather-code column)
equals the input column with each missing cell replaced by that column's
arithmetic mean over its non-missing cells; when a missing weather code
would be filled with a non-integral mean, `fillna` raises a type error and
nothing is replaced.  Scenario C concretely: the column [1.0, missing, 3.0]
becomes [1.0, 2.0, 3.0]. -/
theorem fill_mean_replaces_missing (l : List Row) :
    (wcFillError l = true →
      handle_missing_values l "fill_mean" =
        .error (.typeError "Invalid value for dtype Int64"))
    ∧ (wcFillError l = false → ∃ out,
      handle_missing_values l "fill_mean" = .ok out
      ∧ out.map (fun r => r.temperature_2m_max) =
          fillMeanCol (l.map (fun r => r.temperature_2m_max))
      ∧ out.map (fun r => r.temperature_2m_min) =
          fillMeanCol (l.map (fun r => r.temperature_2m_min))
      ∧ out.map (fun r => r.precipitation_sum) =
          fillMeanCol (l.map (fun r => r.precipitation_sum))
      ∧ out.map (fun r => r.rain_sum) =
          fillMeanCol (l.map (fun r => r.rain_sum))
      ∧ out.map (fun r => r.snowfall_sum) =
          fillMeanCol (l.map (fun r => r.snowfall_sum))
      ∧ out.map (fun r => r.wind_speed_10m_max) =
          fillMeanCol (l.map (fun r => r.wind_speed_10m_max))
      ∧ out.map (fun r => r.weather_code) =
          (l.map (fun r => r.weather_code)).map (fillWith (wcMean l)))
    ∧ meanOpt [some 1, none, some 3] = some 2
    ∧ fillMeanCol [some 1, none, some 3] = [some 1, some 2, some 3]
    ∧ (handle_missing_values [rowM1, rowM2, rowM3] "fill_mean").map
        (fun rows => rows.map (fun r => r.temperature_2m_max)) =
        .ok [some 1, some 2, some 3] := by
  have hmean : meanOpt [some (1 : ℚ), none, some 3] = some 2 := by
    norm_num [meanOpt, List.filterMap_cons, List.sum_cons, List.sum_nil]
  have hcol : fillMeanCol [some (1 : ℚ), none, some 3] = [some 1, some 2, some 3] := by
    rw [fillMeanCol, hmean]
    simp [fillWith]
  have hgen : ∀ l : List Row, wcFillError l = false → ∃ out,
      handle_missing_values l "fill_mean" = .ok out
      ∧ out.map (fun r => r.temperature_2m_max) =
          fillMeanCol (l.map (fun r => r.temperature_2m_max))
      ∧ out.map (fun r => r.temperature_2m_min) =
          fillMeanCol (l.map (fun r => r.temperature_2m_min))
      ∧ out.map (fun r => r.precipitation_sum) =
          fillMeanCol (l.map (fun r => r.precipitation_sum))
      ∧ out.map (fun r => r.rain_sum) =
          fillMeanCol (l.map (fun r => r.rain_sum))
      ∧ out.map (fun r => r.snowfall_sum) =
          fillMeanCol (l.map (fun r => r.snowfall_sum))
      ∧ out.map (fun r => r.wind_speed_10m_max) =
          fillMeanCol (l.map (fun r => r.wind_speed_10m_max))
      ∧ out.map (fun r => r.weather_code) =
          (l.map (fun r => r.weather_code)).map (fillWith (wcMean l)) := by
    intro l hfe
    by_cases hm : missingCount l = 0
    · have hcells := fun r (hr : r ∈ l) =>
        rowMissingCount_eq_zero r (missingCount_zero_rows l hm r hr)
      refine ⟨l, by rw [handle_missing_values, if_pos hm], ?_, ?_, ?_, ?_, ?_, ?_, ?_⟩
      · refine (fillMeanCol_of_no_missing _ ?_).symm
        intro o ho
        obtain ⟨r, hr, rfl⟩ := List.mem_map.mp ho
        exact (hcells r hr).1
      · refine (fillMeanCol_of_no_missing _ ?_).symm
        intro o ho
        obtain ⟨r, hr, rfl⟩ := List.mem_map.mp ho
        exact (hcells r hr).2.1
      · refine (fillMeanCol_of_no_missing _ ?_).symm
        intro o ho
        obtain ⟨r, hr, rfl⟩ := List.mem_map.mp ho
        exact (hcells r hr).2.2.1
      · refine (fillMeanCol_of_no_missing _ ?_).symm
        intro o ho
        obtain ⟨r, hr, rfl⟩ := List.mem_map.mp ho
        exact (hcells r hr).2.2.2.1
      · refine (fillMeanCol_of_no_missing _ ?_).symm
        intro o ho
        obtain ⟨r, hr, rfl⟩ := List.mem_map.mp ho
        exact (hcells r hr).2.2.2.2.1
      · refine (fillMeanCol_of_no_missing _ ?_).symm
        intro o ho
        obtain ⟨r, hr, rfl⟩ := List.mem_map.mp ho
        exact (hcells r hr).2.2.2.2.2.2
      · refine (map_fillWith_of_no_missing _ _ ?_).symm
        intro o ho
        obtain ⟨r, hr, rfl⟩ := List.mem_map.mp ho
        exact (hcells r hr).2.2.2.2.2.1
    · refine ⟨fillMeanRows l,
        by rw [handle_missing_values, if_neg hm, if_neg (by decide),
          if_neg (by decide), if_pos rfl, if_neg (by simp [hfe])],
        ?_, ?_, ?_, ?_, ?_, ?_, ?_⟩
      · simp [fillMeanRows, fillMeanCol, List.map_map]
      · simp [fillMeanRows, fillMeanCol, List.map_map]
      · simp [fillMeanRows, fillMeanCol, List.map_map]
      · simp [fillMeanRows, fillMeanCol, List.map_map]
      · simp [fillMeanRows, fillMeanCol, List.map_map]
      · simp [fillMeanRows, fillMeanCol, List.map_map]
      · simp [fillMeanRows, List.map_map]
  refine ⟨?_, hgen l, hmean, hcol, ?_⟩
  · intro hfe
    rw [handle_missing_values,
      if_neg (missingCount_ne_zero_of_wcFillError l hfe),
      if_neg (by decide), if_neg (by decide), if_pos rfl, if_pos hfe]
  · obtain ⟨out, hok, htmax, _⟩ := hgen [rowM1, rowM2, rowM3] (by decide)
    rw [hok]
    show Except.ok (out.map (fun r => r.temperature_2m_max)) = _
    rw [htmax, show [rowM1, rowM2, rowM3].map (fun r => r.temperature_2m_max) =
      [some (1 : ℚ), none, some 3] from rfl, hcol]

/-- Witness for the amended C5: the type-error branch at the concrete
weather-code dataset and the success branch at the Scenario C dataset. -/
theorem fill_mean_replaces_missing_witness :
    handle_missing_values [roww1, roww2, roww3] "fill_mean" =
      .error (.typeError "Invalid value for dtype Int64")
    ∧ ∃ out, handle_missing_values [rowM1, rowM2, rowM3] "fill_mean" = .ok out := by
  constructor
  · exact (fill_mean_replaces_missing [roww1, roww2, roww3]).1 wcFillError_roww
  · obtain ⟨out, hok, _⟩ :=
      (fill_mean_replaces_missing [rowM1, rowM2, rowM3]).2.1 (by decide)
    exact ⟨out, hok⟩

/-- C8 (counterexample): "2024-1-1" does not match the spec's strict
zero-padded YYYY-MM-DD pattern, yet `pd.to_datetime` with format `%Y-%m-%d`
accepts non-padded components, so the pipeline succeeds on a dataset
containing it instead of failing with a parsing error. -/
theorem strict_date_counterexample :
    strictFormatSpec "2024-1-1" = false
    ∧ parseDate "2024-1-1" = some ⟨2024, 1, 1⟩
    ∧ transform [rawNonPadded] "drop" = .ok [outNonPadded] :=
  ⟨rfl, by decide, rfl⟩

/-- C8 (amended): the transform pipeline fails with a parsing error exactly
when some input date string fails pd.to_datetime's %Y-%m-%d parse — which
accepts non-zero-padded components — regardless of the strategy; when all
dates parse and no weather-code value is a parsable non-integral numeric,
casting succeeds, with unparsable numeric and weather-code strings coerced
to missing rather than raising ("n/a" and "x" become missing, "3.4" becomes
17/5, "7" becomes the integer 7), while a parsable non-integral weather-code
value such as "2.5" makes the cast raise a type error. -/
theorem date_format_fatal (raw : List RawRow) (strat : String) :
    ((∃ r ∈ raw, parseDate r.time = none) ↔
      ∃ e, transform raw strat = .error (.parseError e))
    ∧ ((∀ r ∈ raw, (parseDate r.time).isSome) →
        (∀ r ∈ raw, badWeatherCell r.weather_code = false) →
        ∃ rows, cast_types (remove_duplicates raw) = .ok rows)
    ∧ toNumeric (.str "n/a") = none
    ∧ toNumeric (.str "3.4") = some (17 / 5)
    ∧ toWeatherCode (.str "x") = .ok none
    ∧ toWeatherCode (.str "7") = .ok (some 7)
    ∧ toWeatherCode (.str "2.5") =
        .error "cannot safely cast non-equivalent float64 to int64" := by
  refine ⟨⟨?_, ?_⟩, ?_, rfl, ?_, rfl, ?_, ?_⟩
  · rintro ⟨r, hr, hnone⟩
    obtain ⟨r', hr', _, htime⟩ := remove_duplicates_key_covered raw r hr
    have hnone' : parseDate r'.time = none := by rw [htime]; exact hnone
    exact ⟨"time data does not match format %Y-%m-%d",
      by simp [transform_eq, cast_types_parseError_of_badDate _ r' hr' hnone']⟩
  · rintro ⟨e, he⟩
    by_contra hno
    push_neg at hno
    have h1 : ∀ r ∈ remove_duplicates raw, (parseDate r.time).isSome := by
      intro r hr
      have hne := hno r (mem_of_mem_remove_duplicates raw r hr)
      cases hp : parseDate r.time with
      | none => exact absurd hp hne
      | some d => simp
    rw [transform_eq] at he
    rcases cast_types_of_dates _ h1 with ⟨rows, hrows⟩ | htype
    · simp only [hrows] at he
      split at he
      · rename_i e2 heq
        rcases handle_missing_values_error _ _ _ heq with ⟨msg, rfl⟩ | ⟨msg, rfl⟩ <;>
          simp at he
      · simp at he
    · simp only [htype] at he
      simp at he
  · intro hdates hcodes
    exact ⟨_, cast_types_ok _
      (fun r hr => hdates r (mem_of_mem_remove_duplicates raw r hr))
      (fun r hr => hcodes r (mem_of_mem_remove_duplicates raw r hr))⟩
  · norm_num [toNumeric, parseRat, splitDot, parseNatDigits, digitVal,
      show signSplit ['3', '.', '4'] = ((1 : ℚ), ['3', '.', '4']) from rfl,
      show '3'.isDigit = true from rfl, show '4'.isDigit = true from rfl,
      show '3'.toNat = 51 from rfl, show '4'.toNat = 52 from rfl]
  · norm_num [toWeatherCode, toNumeric, parseRat, splitDot, parseNatDigits, digitVal,
      show signSplit ['7'] = ((1 : ℚ), ['7']) from rfl,
      show '7'.isDigit = true from rfl, show '7'.toNat = 55 from rfl]
  · have h25 : toNumeric (.str "2.5") = some (mkRat 5 2) := by
      norm_num [toNumeric, parseRat, splitDot, parseNatDigits, digitVal,
        Rat.mkRat_eq_div,
        show signSplit ['2', '.', '5'] = ((1 : ℚ), ['2', '.', '5']) from rfl,
        show '2'.isDigit = true from rfl, show '5'.isDigit = true from rfl,
        show '2'.toNat = 50 from rfl, show '5'.toNat = 53 from rfl]
    simp only [toWeatherCode, h25]
    norm_num [show (mkRat 5 2).den = 2 from rfl]

/-- Witness for the amended C8: a concrete bad-date dataset yields a parse
error, and a concrete all-good dataset casts successfully. -/
theorem date_format_fatal_witness :
    (∃ e, transform [rawBadDate] "drop" = .error (.parseError e))
    ∧ (∃ rows, cast_types (remove_duplicates [rawGood]) = .ok rows) := by
  constructor
  · exact (date_format_fatal [rawBadDate] "drop").1.mp
      ⟨rawBadDate, by simp, by decide⟩
  · refine (date_format_fatal [rawGood] "drop").2.1 ?_ ?_
    · intro r hr
      rw [List.mem_singleton.mp hr]
      decide
    · intro r hr
      rw [List.mem_singleton.mp hr]
      decide

/-- Witness for C10: rows with a missing checked field are retained by the
validation steps. -/
theorem missing_values_pass_validation_witness :
    rowMissing ∈ validate_temperature [rowMissing]
    ∧ rowMissingP ∈ validate_precipitation [PrecipCol.psum] [rowMissingP] := by
  constructor
  · refine (missing_values_pass_validation [rowMissing] rowMissing (by simp)).1 rfl ?_
    intro v hv
    have hv' : some (2 : ℚ) = some v := hv
    rw [← Option.some.inj hv']
    norm_num
  · refine (missing_values_pass_validation [rowMissingP] rowMissingP (by simp)).2.2.1
      [PrecipCol.psum] ?_
    intro c hc
    obtain rfl := List.mem_singleton.mp hc
    rfl

end ETL
